import Mathlib

/-!
Shallow embedding of the authentication and session-token subsystem of the
FastApi_Test repository (source files `source/services/auth.py`,
`source/crud/crud_users.py`, `source/routes/routes_auth.py`,
`source/routes/routes_users.py`, `source/exceptions/exceptions.py`,
`source/db/models.py`).

Modelling conventions:
- A JWT is modelled by the structure `Token` holding the payload fields the
  code reads (`sub`, `scope`, `iat`, `exp`) plus a `validSig` flag standing
  for the signature check.  JWT encoding is deterministic and injective on
  the payload, so byte-for-byte string comparison of encoded tokens is
  modelled by decidable equality on `Token`.
- `jwt.decode` (python-jose) raises `JWTError` when the signature is bad or
  the token is expired (`exp < now`); both are collapsed into one failure,
  exactly as the code's `except JWTError` does.
- The users table is a `List User`; the `email` and `username` columns are
  unique (`models.py`), and `created_at`/`updated_at` timestamp columns are
  omitted (no modelled code path reads them).
  `get_user_by_email` uses `result.scalar_one()`, which raises
  `NoResultFound` when there is no row; the registered exception handler
  `no_result_exception_handler` maps that to a 404 response at the boundary.
- The Redis cache is a list of key/entry pairs.  The two key shapes the code
  uses, `user:<email>` and `reset_token_<email>:<token>`, render to disjoint
  string sets (distinct literal prefixes), so they are modelled by the two
  constructors of `Key`.
- bcrypt hashing (`passlib`) is modelled by an injective tagged encoding.
- Outbound email dispatch, file upload and response templating are external
  collaborators; only their control-flow effect on the routes is kept.
-/

/-- A decoded JWT: payload fields plus the outcome of the signature check. -/
structure Token where
  sub : String
  scope : String
  iat : Nat
  exp : Nat
  validSig : Bool
deriving DecidableEq, Repr

/-- Payload returned by a successful `jwt.decode`. -/
structure Payload where
  sub : String
  scope : String
deriving DecidableEq, Repr

/-- Result of `jwt.decode`: payload, or the collapsed `JWTError`. -/
inductive JwtResult where
  | ok (p : Payload)
  | jwtError
deriving DecidableEq, Repr

/-- `jwt.decode(token, SECRET_KEY, algorithms=[ALGORITHM])`: fails with
`JWTError` on a bad signature or when the token is expired. -/
def jwtDecode (now : Nat) (t : Token) : JwtResult :=
  if t.validSig = true ∧ now ≤ t.exp then .ok ⟨t.sub, t.scope⟩ else .jwtError

/-- Errors surfaced by the subsystem: `HTTPException(status_code, detail)`
raised directly, or SQLAlchemy's `NoResultFound` escaping from
`scalar_one()`. -/
inductive Err where
  | http (statusCode : Nat) (detail : String)
  | noResultFound
deriving DecidableEq, Repr

/-- The registered `NoResultFound` exception handler
(`exceptions.py`): maps the escaped ORM error to a 404 response. -/
def no_result_exception_handler : Err → Err
  | .noResultFound => .http 404 "User not found."
  | e => e

/-- The user row (`models.py`), timestamps omitted.  `refresh_token` stores
the encoded refresh JWT (nullable column). -/
structure User where
  id : Nat
  username : String
  email : String
  password : String
  avatar : Option String
  refresh_token : Option Token
  confirmed : Bool
deriving DecidableEq, Repr

/-- JSON-ish values appearing in serialized snapshots.  `vTok` stands for
the encoded-JWT string stored in the `refresh_token` field. -/
inductive Val where
  | vStr (s : String)
  | vNat (n : Nat)
  | vBool (b : Bool)
  | vTok (t : Token)
  | vNull
deriving DecidableEq, Repr

/-- A python dict as produced by `jsonable_encoder`. -/
abbrev Dict := List (String × Val)

/-- Cache keys.  `userKey e` renders as `user:<e>`, `resetKey e t` as
`reset_token_<e>:<t>`; the two renderings never collide (distinct literal
prefixes). -/
inductive Key where
  | userKey (email : String)
  | resetKey (email : String) (tok : Token)
deriving DecidableEq, Repr

/-- Cached values: a serialized user dict (`orjson.dumps(user_dict)`), or
the serialized token marker written by `get_reset_token`
(`orjson.dumps(token)`). -/
inductive CVal where
  | snapshot (fields : Dict)
  | marker (t : Token)
deriving DecidableEq, Repr

/-- A Redis entry: value plus the TTL set by `redis.expire`. -/
structure Entry where
  value : CVal
  ttl : Option Nat
deriving DecidableEq, Repr

/-- The Redis cache. -/
abbrev Cache := List (Key × Entry)

/-- `redis.get key`. -/
def cacheGet (c : Cache) (k : Key) : Option CVal :=
  (c.find? (fun p => decide (p.1 = k))).map (fun p => p.2.value)

/-- `redis.set key v` (fresh entry, no TTL until `expire`). -/
def cacheSet (c : Cache) (k : Key) (v : CVal) : Cache :=
  (k, ⟨v, none⟩) :: c.filter (fun p => decide (p.1 ≠ k))

/-- `redis.expire key t`. -/
def cacheExpire (c : Cache) (k : Key) (t : Nat) : Cache :=
  c.map (fun p => if p.1 = k then (p.1, ⟨p.2.value, some t⟩) else p)

/-- `redis.delete key`. -/
def cacheDelete (c : Cache) (k : Key) : Cache :=
  c.filter (fun p => decide (p.1 ≠ k))

/-- TTL currently attached to a key's entry. -/
def cacheTtl (c : Cache) (k : Key) : Option Nat :=
  match c.find? (fun p => decide (p.1 = k)) with
  | some p => p.2.ttl
  | none => none

/-- Lookup in a serialized dict. -/
def dictLookup (d : Dict) (k : String) : Option Val :=
  (d.find? (fun p => p.1 == k)).map (fun p => p.2)

/-- `dict.pop(k)`'s effect on the dict. -/
def dictPop (d : Dict) (k : String) : Dict :=
  d.filter (fun p => p.1 != k)

/-- `jsonable_encoder(user)`: the user row as a field dict
(timestamp columns omitted, see header). -/
def jsonable_encoder (u : User) : Dict :=
  [("id", .vNat u.id),
   ("username", .vStr u.username),
   ("email", .vStr u.email),
   ("password", .vStr u.password),
   ("avatar", match u.avatar with | some a => .vStr a | none => .vNull),
   ("refresh_token", match u.refresh_token with | some t => .vTok t | none => .vNull),
   ("confirmed", .vBool u.confirmed)]

/-- `User(**user_data_dict)`: rebuild a row object from a serialized dict;
fields absent from the dict are left at the column default (`None` for the
nullable `refresh_token`). -/
def userFromDict (d : Dict) : User :=
  { id := match dictLookup d "id" with | some (.vNat n) => n | _ => 0
  , username := match dictLookup d "username" with | some (.vStr s) => s | _ => ""
  , email := match dictLookup d "email" with | some (.vStr s) => s | _ => ""
  , password := match dictLookup d "password" with | some (.vStr s) => s | _ => ""
  , avatar := match dictLookup d "avatar" with | some (.vStr s) => some s | _ => none
  , refresh_token := match dictLookup d "refresh_token" with | some (.vTok t) => some t | _ => none
  , confirmed := match dictLookup d "confirmed" with | some (.vBool b) => b | _ => false }

/-- First user with the given email (emails are unique in the schema). -/
def findUser (db : List User) (email : String) : Option User :=
  db.find? (fun u => u.email == email)

namespace crud_users

/-- `crud_users.get_user_by_email`: `select ... where email`, then
`scalar_one()`, which raises `NoResultFound` when there is no row. -/
def get_user_by_email (email : String) (db : List User) : Except Err User :=
  match findUser db email with
  | some u => .ok u
  | none => .error .noResultFound

/-- `crud_users.create_user`: insert; the unique constraints on `email` and
`username` make a duplicate insert raise `IntegrityError`, which the
registered handler maps to the 409 response. -/
def create_user (body : User) (db : List User) : Except Err (User × List User) :=
  if db.any (fun u => u.email == body.email || u.username == body.username) then
    .error (.http 409 "Data already exists. Check input data, please")
  else
    .ok (body, db ++ [body])

/-- `crud_users.update_password`: set the user's password hash and commit. -/
def update_password (user : User) (newPassword : String) (db : List User) : List User :=
  db.map (fun u => if u.email == user.email then { u with password := newPassword } else u)

/-- `crud_users.update_token`: set the user's refresh token and commit. -/
def update_token (user : User) (token : Option Token) (db : List User) : List User :=
  db.map (fun u => if u.email == user.email then { u with refresh_token := token } else u)

/-- `crud_users.confirmed_email`: look the user up by email (raising
`NoResultFound` if absent) and set `confirmed = True`. -/
def confirmed_email (email : String) (db : List User) : Except Err (List User) :=
  match get_user_by_email email db with
  | .error e => .error e
  | .ok _ =>
      .ok (db.map (fun u => if u.email == email then { u with confirmed := true } else u))

/-- `crud_users.update_avatar`: look the user up, set the avatar url,
commit and return the refreshed row. -/
def update_avatar (email : String) (url : Option String) (db : List User) :
    Except Err (User × List User) :=
  match get_user_by_email email db with
  | .error e => .error e
  | .ok u =>
      let u' := { u with avatar := url }
      .ok (u', db.map (fun v => if v.email == email then u' else v))

/-- `crud_users.delete_user`: look the user up (raising if absent), delete
and return it. -/
def delete_user (email : String) (db : List User) : Except Err (User × List User) :=
  match get_user_by_email email db with
  | .error e => .error e
  | .ok u => .ok (u, db.filter (fun v => v.email != email))

end crud_users

namespace Auth

/-- `Auth.credentials_exception`. -/
def credentials_exception : Err := .http 401 "Could not validate credentials"

/-- `Auth.get_password_hash`: passlib bcrypt, modelled as an injective
tagged encoding. -/
def get_password_hash (password : String) : String :=
  "bcrypt$" ++ password

/-- `Auth.verify_password`. -/
def verify_password (plain hashed : String) : Bool :=
  hashed == get_password_hash plain

/-- `Auth.create_access_token`: scope `access_token`, default TTL 15
minutes, overridable (`expires_delta` in seconds). -/
def create_access_token (sub : String) (now : Nat) (expires_delta : Option Nat) : Token :=
  { sub := sub, scope := "access_token", iat := now
  , exp := now + (match expires_delta with | some d => d | none => 15 * 60)
  , validSig := true }

/-- `Auth.create_refresh_token`: scope `refresh_token`, default TTL 7
days. -/
def create_refresh_token (sub : String) (now : Nat) (expires_delta : Option Nat) : Token :=
  { sub := sub, scope := "refresh_token", iat := now
  , exp := now + (match expires_delta with | some d => d | none => 7 * 24 * 60 * 60)
  , validSig := true }

/-- `Auth.create_email_token`: caller-supplied purpose as scope, TTL 15
minutes. -/
def create_email_token (sub : String) (purpose : String) (now : Nat) : Token :=
  { sub := sub, scope := purpose, iat := now, exp := now + 15 * 60, validSig := true }

/-- `Auth.decode_token`: decode, then accept any of the three non-access
scopes; any other scope raises a 422 whose detail names the scope; a
`JWTError` (bad signature or expired) raises `credentials_exception`. -/
def decode_token (now : Nat) (token : Token) : Except Err String :=
  match jwtDecode now token with
  | .jwtError => .error credentials_exception
  | .ok payload =>
      if payload.scope = "refresh_token" ∨ payload.scope = "confirm_email"
          ∨ payload.scope = "reset_password" then
        .ok payload.sub
      else
        .error (.http 422 ("Invalid " ++ payload.scope ++ " verification"))

/-- Observable I/O events of `get_current_user`, recording the order in
which the store and the cache are consulted. -/
inductive Event where
  | storeRead (email : String)
  | cacheRead (k : Key)
  | cacheWrite (k : Key)
deriving DecidableEq, Repr

/-- `Auth.get_current_user`: decode the access token, fetch the user from
the database, then consult the Redis cache under `user:<email>`; on a hit
return the deserialized snapshot, on a miss serialize the user without its
`refresh_token` field, store it with TTL 900 and return the fresh row.
Returns the result, the cache after the call, and the I/O event trace. -/
def get_current_user (now : Nat) (token : Token) (db : List User) (cache : Cache) :
    Except Err User × Cache × List Event :=
  match jwtDecode now token with
  | .jwtError => (.error credentials_exception, cache, [])
  | .ok payload =>
      if payload.scope = "access_token" then
        match crud_users.get_user_by_email payload.sub db with
        | .error e => (.error e, cache, [.storeRead payload.sub])
        | .ok user =>
            let key := Key.userKey user.email
            match cacheGet cache key with
            | some (.snapshot d) =>
                (.ok (userFromDict d), cache, [.storeRead payload.sub, .cacheRead key])
            | some (.marker _) =>
                -- unreachable: no code path stores a marker under a user key
                (.ok user, cache, [.storeRead payload.sub, .cacheRead key])
            | none =>
                let d := dictPop (jsonable_encoder user) "refresh_token"
                let cache' := cacheExpire (cacheSet cache key (.snapshot d)) key 900
                (.ok user, cache',
                 [.storeRead payload.sub, .cacheRead key, .cacheWrite key])
      else
        (.error credentials_exception, cache, [])

end Auth

/-- Values returned by the route handlers. -/
inductive RouteResult where
  | tokens (access : Token) (refresh : Token) (tokenType : String)
  | message (s : String)
  | userReturned (u : User)
  | templateResponse (tok : Token)
deriving DecidableEq, Repr

namespace routes_auth

/-- `POST /signup`: hash the password, insert the new user (`confirmed`
defaults to false), schedule the confirmation email (external, dropped). -/
def signup (username email password avatarUrl : String) (db : List User) :
    Except Err RouteResult × List User :=
  let body : User :=
    { id := db.length, username := username, email := email
    , password := Auth.get_password_hash password
    , avatar := some avatarUrl, refresh_token := none, confirmed := false }
  match crud_users.create_user body db with
  | .error e => (.error e, db)
  | .ok (u, db') => (.ok (.userReturned u), db')

/-- `POST /login`: look up by email (`NoResultFound` escapes if absent),
require `confirmed`, verify the password, then issue and persist a fresh
token pair. -/
def login (username password : String) (now : Nat) (db : List User) :
    Except Err RouteResult × List User :=
  match crud_users.get_user_by_email username db with
  | .error e => (.error e, db)
  | .ok user =>
      if user.confirmed = false then
        (.error (.http 401 "Please, confirm your email!"), db)
      else if Auth.verify_password password user.password = false then
        (.error (.http 401 "Invalid password"), db)
      else
        let access := Auth.create_access_token user.email now none
        let refresh := Auth.create_refresh_token user.email now none
        (.ok (.tokens access refresh "bearer"), crud_users.update_token user (some refresh) db)

/-- `GET /confirmed_email/{token}`: decode the token, look the user up, and
confirm the email unless it already is confirmed. -/
def confirmed_email (now : Nat) (token : Token) (db : List User) :
    Except Err RouteResult × List User :=
  match Auth.decode_token now token with
  | .error e => (.error e, db)
  | .ok email =>
      match crud_users.get_user_by_email email db with
      | .error e => (.error e, db)
      | .ok user =>
          if user.confirmed = true then
            (.ok (.message "Your email is alredy confirmed"), db)
          else
            match crud_users.confirmed_email email db with
            | .error e => (.error e, db)
            | .ok db' => (.ok (.message "Email confirmed"), db')

/-- `GET /refresh_token`: decode the presented token, look the user up; on
a stored-token mismatch clear the stored refresh token and fail 401;
otherwise rotate the pair and persist the new refresh token. -/
def refresh_token (now : Nat) (token : Token) (db : List User) :
    Except Err RouteResult × List User :=
  match Auth.decode_token now token with
  | .error e => (.error e, db)
  | .ok email =>
      match crud_users.get_user_by_email email db with
      | .error e => (.error e, db)
      | .ok user =>
          if user.refresh_token ≠ some token then
            (.error (.http 401 "Invalid refresh token"), crud_users.update_token user none db)
          else
            let access := Auth.create_access_token email now none
            let refresh := Auth.create_refresh_token email now none
            (.ok (.tokens access refresh "bearer"),
             crud_users.update_token user (some refresh) db)

/-- `GET /logout`: resolve the current user via `get_current_user`, clear
the stored refresh token, and delete the cached identity entry if
present. -/
def logout (now : Nat) (token : Token) (db : List User) (cache : Cache) :
    Except Err RouteResult × List User × Cache :=
  match Auth.get_current_user now token db cache with
  | (.error e, c, _) => (.error e, db, c)
  | (.ok user, c, _) =>
      let db' := crud_users.update_token user none db
      let key := Key.userKey user.email
      let c' := match cacheGet c key with
        | some _ => cacheDelete c key
        | none => c
      (.ok (.message "You have logged out successfully"), db', c')

/-- `POST /request_email`: look the user up (`NoResultFound` escapes if
absent; the code reads `user.confirmed` before its `if user:` guard), and
either report already-confirmed or schedule a new confirmation email. -/
def request_email (email : String) (db : List User) : Except Err RouteResult :=
  match crud_users.get_user_by_email email db with
  | .error e => .error e
  | .ok user =>
      if user.confirmed = true then .ok (.message "Your email is already confirmed")
      else .ok (.message "Check your email for confirmation.")

/-- `POST /forgot_password` (handler named `reset_password` in the code):
look the user up by email — `scalar_one()` raises `NoResultFound` when the
email is unknown, so the `if user:` guard is dead code — then schedule the
reset email (external, dropped) and return the fixed message. -/
def reset_password (email : String) (db : List User) : Except Err RouteResult :=
  match crud_users.get_user_by_email email db with
  | .error e => .error e
  | .ok _ =>
      .ok (.message "Check your email for reset password. You have 15 minutes for reset!")

/-- `GET /get_reset_token/{token}`: decode (any of the three non-access
scopes), look the user up, and create the reset nonce at
`reset_token_<email>:<token>` with TTL 900 when absent; always render the
reset template with the token. -/
def get_reset_token (now : Nat) (token : Token) (db : List User) (cache : Cache) :
    Except Err RouteResult × Cache :=
  match Auth.decode_token now token with
  | .error e => (.error e, cache)
  | .ok email =>
      match crud_users.get_user_by_email email db with
      | .error e => (.error e, cache)
      | .ok user =>
          let key := Key.resetKey user.email token
          match cacheGet cache key with
          | none =>
              let c := cacheExpire (cacheSet cache key (.marker token)) key 900
              (.ok (.templateResponse token), c)
          | some _ => (.ok (.templateResponse token), cache)

/-- `POST /reset_password` (handler `confirm_reset_password`): decode the
reset token, look the user up, require the nonce to be present (422
otherwise), and for a confirmed user hash and persist the new password and
delete the nonce; for an unconfirmed user return the user object with no
mutation. -/
def confirm_reset_password (now : Nat) (token : Token) (password : String)
    (db : List User) (cache : Cache) :
    Except Err RouteResult × List User × Cache :=
  match Auth.decode_token now token with
  | .error e => (.error e, db, cache)
  | .ok email =>
      match crud_users.get_user_by_email email db with
      | .error e => (.error e, db, cache)
      | .ok user =>
          let key := Key.resetKey user.email token
          match cacheGet cache key with
          | none =>
              (.error (.http 422 ("Your password reset token has expired. "
                  ++ "Please request a new token to reset your password.")), db, cache)
          | some _ =>
              if user.confirmed = true then
                let new_password := Auth.get_password_hash password
                (.ok (.message "Password succefuly updated"),
                 crud_users.update_password user new_password db,
                 cacheDelete cache key)
              else
                (.ok (.userReturned user), db, cache)

end routes_auth

namespace routes_users

/-- `PATCH /users/update_avatar`: resolve the current user, upload the new
avatar (external; `url` is the resulting address), persist it, and rewrite
the cached identity snapshot — again without the `refresh_token` field —
with TTL 900. -/
def update_avatar (now : Nat) (token : Token) (url : String)
    (db : List User) (cache : Cache) :
    Except Err RouteResult × List User × Cache :=
  match Auth.get_current_user now token db cache with
  | (.error e, c, _) => (.error e, db, c)
  | (.ok current_user, c, _) =>
      match crud_users.update_avatar current_user.email (some url) db with
      | .error e => (.error e, db, c)
      | .ok (user, db') =>
          let key := Key.userKey user.email
          let d := dictPop (jsonable_encoder user) "refresh_token"
          let c' := cacheExpire (cacheSet c key (.snapshot d)) key 900
          (.ok (.userReturned user), db', c')

/-- `DELETE /users/delete_profile`: resolve the current user, delete the
row, and drop the cached identity entry if present. -/
def delete_profile (now : Nat) (token : Token) (db : List User) (cache : Cache) :
    Except Err RouteResult × List User × Cache :=
  match Auth.get_current_user now token db cache with
  | (.error e, c, _) => (.error e, db, c)
  | (.ok current_user, c, _) =>
      match crud_users.delete_user current_user.email db with
      | .error e => (.error e, db, c)
      | .ok (_, db') =>
          let key := Key.userKey current_user.email
          let c' := match cacheGet c key with
            | some _ => cacheDelete c key
            | none => c
          (.ok (.message "deleted"), db', c')

end routes_users

/-- Whole-system state: the users table and the Redis cache. -/
structure SysState where
  db : List User
  cache : Cache
deriving DecidableEq, Repr

/-- The operations of the modelled subsystem. -/
inductive Op where
  | opSignup (username email password avatarUrl : String)
  | opLogin (username password : String) (now : Nat)
  | opConfirmEmail (now : Nat) (tok : Token)
  | opRefresh (now : Nat) (tok : Token)
  | opLogout (now : Nat) (tok : Token)
  | opRequestEmail (email : String)
  | opForgotPassword (email : String)
  | opGetResetToken (now : Nat) (tok : Token)
  | opConfirmReset (now : Nat) (tok : Token) (password : String)
  | opResolve (now : Nat) (tok : Token)
  | opUpdateAvatar (now : Nat) (tok : Token) (url : String)
  | opDeleteProfile (now : Nat) (tok : Token)
deriving DecidableEq, Repr

/-- State transition of one operation. -/
def applyOp (s : SysState) : Op → SysState
  | .opSignup un em pw av => { s with db := (routes_auth.signup un em pw av s.db).2 }
  | .opLogin un pw now => { s with db := (routes_auth.login un pw now s.db).2 }
  | .opConfirmEmail now tok => { s with db := (routes_auth.confirmed_email now tok s.db).2 }
  | .opRefresh now tok => { s with db := (routes_auth.refresh_token now tok s.db).2 }
  | .opLogout now tok =>
      let r := routes_auth.logout now tok s.db s.cache
      { db := r.2.1, cache := r.2.2 }
  | .opRequestEmail _ => s
  | .opForgotPassword _ => s
  | .opGetResetToken now tok =>
      { s with cache := (routes_auth.get_reset_token now tok s.db s.cache).2 }
  | .opConfirmReset now tok pw =>
      let r := routes_auth.confirm_reset_password now tok pw s.db s.cache
      { db := r.2.1, cache := r.2.2 }
  | .opResolve now tok =>
      { s with cache := (Auth.get_current_user now tok s.db s.cache).2.1 }
  | .opUpdateAvatar now tok url =>
      let r := routes_users.update_avatar now tok url s.db s.cache
      { db := r.2.1, cache := r.2.2 }
  | .opDeleteProfile now tok =>
      let r := routes_users.delete_profile now tok s.db s.cache
      { db := r.2.1, cache := r.2.2 }

/-- Run a sequence of operations. -/
def applyOps (s : SysState) : List Op → SysState
  | [] => s
  | op :: ops => applyOps (applyOp s op) ops

/-! Concrete fixtures used by witnesses and counterexamples. -/

/-- A confirmed user (the spec's scenario identity). -/
def wick : User :=
  { id := 1, username := "JohnWick", email := "wick@example.com"
  , password := Auth.get_password_hash "123456"
  , avatar := some "http://img/wick", refresh_token := none, confirmed := true }

/-- The same identity before email confirmation. -/
def wickUnconfirmed : User := { wick with confirmed := false }

/-- Decidable equality for `Except` results (not provided by core). -/
instance {ε α : Type} [DecidableEq ε] [DecidableEq α] : DecidableEq (Except ε α) := fun a b =>
  match a, b with
  | .ok x, .ok y =>
      if h : x = y then isTrue (by rw [h])
      else isFalse (fun hh => h (Except.ok.inj hh))
  | .error x, .error y =>
      if h : x = y then isTrue (by rw [h])
      else isFalse (fun hh => h (Except.error.inj hh))
  | .ok _, .error _ => isFalse (fun hh => Except.noConfusion hh)
  | .error _, .ok _ => isFalse (fun hh => Except.noConfusion hh)

/-! Helper lemmas about lookups. -/

/-- The user found by `findUser` carries the looked-up email. -/
theorem findUser_some_email {db : List User} {e : String} {u : User}
    (h : findUser db e = some u) : u.email = e := by
  have := List.find?_some h
  simpa using this

/-- `find?` by email commutes with an email-preserving map. -/
theorem findUser_map (db : List User) (f : User → User) (e : String)
    (hf : ∀ v, (f v).email = v.email) :
    findUser (db.map f) e = (findUser db e).map f := by
  unfold findUser
  rw [List.find?_map]
  have : ((fun u => u.email == e) ∘ f) = fun u => u.email == e := by
    funext v
    simp [Function.comp, hf]
  rw [this]

/-- Looking up a key just popped from a dict yields nothing. -/
theorem dictLookup_dictPop (d : Dict) (k : String) :
    dictLookup (dictPop d k) k = none := by
  simp [dictPop, dictLookup]

/-- Deleting a key removes it from the cache. -/
theorem cacheGet_delete_self (c : Cache) (k : Key) :
    cacheGet (cacheDelete c k) k = none := by
  simp [cacheDelete, cacheGet]

/-- A `set` followed by `expire n` leaves the key with TTL `n`. -/
theorem cacheTtl_set_expire (c : Cache) (k : Key) (v : CVal) (n : Nat) :
    cacheTtl (cacheExpire (cacheSet c k v) k n) k = some n := by
  simp [cacheTtl, cacheExpire, cacheSet]

/-- A `set` followed by `expire` makes the key hit with the set value. -/
theorem cacheGet_set_expire (c : Cache) (k : Key) (v : CVal) (n : Nat) :
    cacheGet (cacheExpire (cacheSet c k v) k n) k = some v := by
  simp [cacheGet, cacheExpire, cacheSet]

/-- A successful `findUser` makes `get_user_by_email` succeed. -/
theorem get_user_by_email_ok {db : List User} {e : String} {u : User}
    (h : findUser db e = some u) : crud_users.get_user_by_email e db = .ok u := by
  simp [crud_users.get_user_by_email, h]

/-- `findUser` after `update_token` sees the pointwise update. -/
theorem findUser_update_token (db : List User) (w : User) (tok : Option Token) (e : String) :
    findUser (crud_users.update_token w tok db) e =
      (findUser db e).map
        (fun v => if v.email == w.email then { v with refresh_token := tok } else v) := by
  unfold crud_users.update_token
  exact findUser_map _ _ _ (by intro v; by_cases h : v.email == w.email <;> simp [h])

/-- `findUser` after `update_password` sees the pointwise update. -/
theorem findUser_update_password (db : List User) (w : User) (npw : String) (e : String) :
    findUser (crud_users.update_password w npw db) e =
      (findUser db e).map
        (fun v => if v.email == w.email then { v with password := npw } else v) := by
  unfold crud_users.update_password
  exact findUser_map _ _ _ (by intro v; by_cases h : v.email == w.email <;> simp [h])

/-- C1 — counterexample: a validly signed, unexpired token with scope
`reset_password` is accepted by the email-confirmation operation, which
requires scope `confirm_email`: the operation proceeds and confirms the
email, so cross-scope rejection among the three non-access scopes fails. -/
theorem c1_cross_scope_counterexample :
    (routes_auth.confirmed_email 0 ⟨"wick@example.com", "reset_password", 0, 900, true⟩
        [wickUnconfirmed]).1 = .ok (.message "Email confirmed") ∧
    findUser (routes_auth.confirmed_email 0
        ⟨"wick@example.com", "reset_password", 0, 900, true⟩ [wickUnconfirmed]).2
        "wick@example.com" = some { wickUnconfirmed with confirmed := true } := by
  constructor <;> rfl

/-- C1 (amended): a token with scope `access_token` is rejected, with no
state change, by every operation that decodes through `Auth.decode_token`
(email confirmation, refresh, reset-token view, reset confirmation), and a
token with any of the scopes `refresh_token`, `confirm_email`,
`reset_password` is rejected by current-identity resolution; the three
non-access scopes are however interchangeable among the operations that
decode through `Auth.decode_token`. -/
theorem c1_scope_enforcement_amended (now : Nat) (t : Token) (db : List User)
    (cache : Cache) (hsig : t.validSig = true) (hexp : now ≤ t.exp) :
    (t.scope = "access_token" →
      routes_auth.confirmed_email now t db =
        (.error (.http 422 "Invalid access_token verification"), db) ∧
      routes_auth.refresh_token now t db =
        (.error (.http 422 "Invalid access_token verification"), db) ∧
      routes_auth.get_reset_token now t db cache =
        (.error (.http 422 "Invalid access_token verification"), cache) ∧
      (∀ pw, routes_auth.confirm_reset_password now t pw db cache =
        (.error (.http 422 "Invalid access_token verification"), db, cache))) ∧
    ((t.scope = "refresh_token" ∨ t.scope = "confirm_email" ∨ t.scope = "reset_password") →
      Auth.get_current_user now t db cache = (.error Auth.credentials_exception, cache, [])) := by
  constructor
  · intro hs
    have hdec : Auth.decode_token now t =
        .error (.http 422 "Invalid access_token verification") := by
      simp [Auth.decode_token, jwtDecode, hsig, hexp, hs]
    refine ⟨?_, ?_, ?_, fun pw => ?_⟩ <;>
      simp [routes_auth.confirmed_email, routes_auth.refresh_token,
        routes_auth.get_reset_token, routes_auth.confirm_reset_password, hdec]
  · intro hs
    have hne : ¬ t.scope = "access_token" := by
      rcases hs with h | h | h <;> rw [h] <;> decide
    simp [Auth.get_current_user, jwtDecode, hsig, hexp, hne]

/-- C1 — witness for the amended theorem at concrete inputs. -/
theorem c1_scope_enforcement_witness :
    routes_auth.refresh_token 0 ⟨"wick@example.com", "access_token", 0, 900, true⟩ [wick] =
      (.error (.http 422 "Invalid access_token verification"), [wick]) ∧
    Auth.get_current_user 0 ⟨"wick@example.com", "refresh_token", 0, 900, true⟩ [wick] [] =
      (.error Auth.credentials_exception, [], []) :=
  ⟨((c1_scope_enforcement_amended 0 ⟨"wick@example.com", "access_token", 0, 900, true⟩
      [wick] [] rfl (by decide)).1 rfl).2.1,
   (c1_scope_enforcement_amended 0 ⟨"wick@example.com", "refresh_token", 0, 900, true⟩
      [wick] [] rfl (by decide)).2 (Or.inl rfl)⟩

/-- C8 — counterexample: a validly signed, unexpired token with the wrong
scope is rejected by `Auth.decode_token` with a 422 error whose message
names the token's scope, not with the generic 401 `credentials_exception`,
so wrong-scope failures are distinguishable from signature/expiry
failures. -/
theorem c8_wrong_scope_distinct_error :
    Auth.decode_token 0 ⟨"wick@example.com", "access_token", 0, 100, true⟩ =
        .error (.http 422 "Invalid access_token verification") ∧
    Auth.decode_token 0 ⟨"wick@example.com", "access_token", 0, 100, true⟩ ≠
        .error Auth.credentials_exception := by
  constructor
  · rfl
  · decide

/-- C8 (amended): signature and expiry failures are both surfaced by
`Auth.decode_token` as the single generic 401 `credentials_exception`, but
a wrong-scope token is surfaced as a distinct 422 error whose message
names the token's scope; `Auth.get_current_user`, by contrast, surfaces
all three failures as the generic 401. -/
theorem c8_decode_failures_amended (now : Nat) (t : Token) :
    (¬ (t.validSig = true ∧ now ≤ t.exp) →
        Auth.decode_token now t = .error Auth.credentials_exception) ∧
    ((t.validSig = true ∧ now ≤ t.exp) → t.scope = "access_token" →
        Auth.decode_token now t =
          .error (.http 422 "Invalid access_token verification")) ∧
    (∀ db cache, (t.validSig = true ∧ now ≤ t.exp) → ¬ t.scope = "access_token" →
        Auth.get_current_user now t db cache = (.error Auth.credentials_exception, cache, [])) := by
  refine ⟨?_, ?_, ?_⟩
  · intro h
    simp [Auth.decode_token, jwtDecode, h]
  · intro h hs
    simp [Auth.decode_token, jwtDecode, h.1, h.2, hs]
  · intro db cache h hs
    simp [Auth.get_current_user, jwtDecode, h.1, h.2, hs]

/-- C8 — witness for the amended theorem at concrete inputs. -/
theorem c8_decode_failures_witness :
    Auth.decode_token 5 ⟨"wick@example.com", "refresh_token", 0, 2, true⟩ =
        .error Auth.credentials_exception ∧
    Auth.get_current_user 0 ⟨"wick@example.com", "confirm_email", 0, 900, true⟩ [wick] [] =
        (.error Auth.credentials_exception, [], []) :=
  ⟨(c8_decode_failures_amended 5 ⟨"wick@example.com", "refresh_token", 0, 2, true⟩).1
      (by decide),
   (c8_decode_failures_amended 0 ⟨"wick@example.com", "confirm_email", 0, 900, true⟩).2.2
      [wick] [] ⟨rfl, by decide⟩ (by decide)⟩

/-- C7 — the code evaluated at the failing input: requesting a password
reset for an unknown email raises `NoResultFound` from `scalar_one()`,
which the registered handler turns into a 404 "User not found." response,
while the same request for an existing email returns the fixed success
message — so the operation's outcome reveals account existence, contrary
to the specified silent no-op. -/
theorem c7_reset_password_reveals_existence :
    routes_auth.reset_password "ghost@example.com" [wick] = .error .noResultFound ∧
    no_result_exception_handler Err.noResultFound = .http 404 "User not found." ∧
    routes_auth.reset_password "wick@example.com" [wick] =
      .ok (.message "Check your email for reset password. You have 15 minutes for reset!") ∧
    routes_auth.reset_password "ghost@example.com" [wick] ≠
      routes_auth.reset_password "wick@example.com" [wick] := by
  refine ⟨rfl, rfl, rfl, by decide⟩

/-- C4 — counterexample: on a cache hit, `Auth.get_current_user` has
already read the identity store — the event trace of a hit starts with the
store read — so the cached snapshot is not returned "without reading the
store", and the cache is not consulted before the store. -/
theorem c4_hit_still_reads_store :
    cacheGet [(Key.userKey "wick@example.com",
        ⟨.snapshot (dictPop (jsonable_encoder wick) "refresh_token"), some 900⟩)]
        (Key.userKey "wick@example.com") ≠ none ∧
    (Auth.get_current_user 0 ⟨"wick@example.com", "access_token", 0, 900, true⟩ [wick]
        [(Key.userKey "wick@example.com",
          ⟨.snapshot (dictPop (jsonable_encoder wick) "refresh_token"), some 900⟩)]).2.2 =
      [.storeRead "wick@example.com", .cacheRead (Key.userKey "wick@example.com")] := by
  constructor
  · decide
  · rfl

/-- C4 (amended): on every resolution of the current identity from a valid
access-scoped token for an existing identity, the identity store is read
first; the cache is consulted afterwards: on a hit the cached snapshot is
deserialized and returned (the store having already been read), and on a
miss the freshly fetched identity is serialized without its refresh-token
field, stored under the identity key with TTL 900 seconds, and returned. -/
theorem c4_resolution_store_then_cache (now : Nat) (t : Token) (db : List User)
    (cache : Cache) (u : User)
    (hsig : t.validSig = true) (hexp : now ≤ t.exp) (hscope : t.scope = "access_token")
    (hu : findUser db t.sub = some u) :
    (∀ d, cacheGet cache (Key.userKey u.email) = some (.snapshot d) →
        Auth.get_current_user now t db cache =
          (.ok (userFromDict d), cache,
           [.storeRead t.sub, .cacheRead (Key.userKey u.email)])) ∧
    (cacheGet cache (Key.userKey u.email) = none →
        Auth.get_current_user now t db cache =
          (.ok u,
           cacheExpire (cacheSet cache (Key.userKey u.email)
             (.snapshot (dictPop (jsonable_encoder u) "refresh_token")))
             (Key.userKey u.email) 900,
           [.storeRead t.sub, .cacheRead (Key.userKey u.email),
            .cacheWrite (Key.userKey u.email)]) ∧
        cacheTtl (Auth.get_current_user now t db cache).2.1 (Key.userKey u.email) = some 900 ∧
        dictLookup (dictPop (jsonable_encoder u) "refresh_token") "refresh_token" = none) := by
  have hv : crud_users.get_user_by_email t.sub db = .ok u := get_user_by_email_ok hu
  constructor
  · intro d hd
    simp [Auth.get_current_user, jwtDecode, hsig, hexp, hscope, hv, hd]
  · intro hmiss
    refine ⟨?_, ?_, dictLookup_dictPop _ _⟩
    · simp [Auth.get_current_user, jwtDecode, hsig, hexp, hscope, hv, hmiss]
    · simp [Auth.get_current_user, jwtDecode, hsig, hexp, hscope, hv, hmiss,
        cacheTtl_set_expire]

/-- C4 — witness for the amended theorem: a concrete miss populates the
cache with the refresh-token-free snapshot under TTL 900. -/
theorem c4_resolution_witness :
    Auth.get_current_user 0 ⟨"wick@example.com", "access_token", 0, 900, true⟩ [wick] [] =
      (.ok wick,
       cacheExpire (cacheSet [] (Key.userKey wick.email)
         (.snapshot (dictPop (jsonable_encoder wick) "refresh_token")))
         (Key.userKey wick.email) 900,
       [.storeRead "wick@example.com", .cacheRead (Key.userKey wick.email),
        .cacheWrite (Key.userKey wick.email)]) ∧
    cacheTtl (Auth.get_current_user 0 ⟨"wick@example.com", "access_token", 0, 900, true⟩
        [wick] []).2.1 (Key.userKey wick.email) = some 900 :=
  ⟨((c4_resolution_store_then_cache 0 _ [wick] [] wick rfl (by decide) rfl (by decide)).2
      rfl).1,
   ((c4_resolution_store_then_cache 0 _ [wick] [] wick rfl (by decide) rfl (by decide)).2
      rfl).2.1⟩

/-- C2: refresh with a refresh-scoped token — on a stored-token mismatch
the stored refresh token is cleared and the request fails with the 401
`Invalid refresh token` error; on a match a fresh access/refresh pair is
issued, the new refresh token is persisted and both are returned; and a
subsequent refresh presenting the old token (distinct from the newly
issued one) fails with the same 401 even while the old token is still
nominally unexpired. -/
theorem c2_refresh_rotation (now now2 : Nat) (t : Token) (db : List User) (u : User)
    (hsig : t.validSig = true) (hexp : now ≤ t.exp) (hscope : t.scope = "refresh_token")
    (hu : findUser db t.sub = some u) :
    (u.refresh_token ≠ some t →
      routes_auth.refresh_token now t db =
        (.error (.http 401 "Invalid refresh token"), crud_users.update_token u none db) ∧
      findUser (crud_users.update_token u none db) t.sub =
        some { u with refresh_token := none }) ∧
    (u.refresh_token = some t →
      routes_auth.refresh_token now t db =
        (.ok (.tokens (Auth.create_access_token t.sub now none)
              (Auth.create_refresh_token t.sub now none) "bearer"),
         crud_users.update_token u (some (Auth.create_refresh_token t.sub now none)) db) ∧
      findUser (crud_users.update_token u
          (some (Auth.create_refresh_token t.sub now none)) db) t.sub =
        some { u with refresh_token := some (Auth.create_refresh_token t.sub now none) } ∧
      (now2 ≤ t.exp → Auth.create_refresh_token t.sub now none ≠ t →
        (routes_auth.refresh_token now2 t
            (crud_users.update_token u
              (some (Auth.create_refresh_token t.sub now none)) db)).1 =
          .error (.http 401 "Invalid refresh token"))) := by
  have hv : crud_users.get_user_by_email t.sub db = .ok u := get_user_by_email_ok hu
  have hdec : ∀ m, m ≤ t.exp → Auth.decode_token m t = .ok t.sub := by
    intro m hm
    simp [Auth.decode_token, jwtDecode, hsig, hm, hscope]
  constructor
  · intro hne
    constructor
    · simp [routes_auth.refresh_token, hdec now hexp, hv, hne]
    · rw [findUser_update_token, hu]
      simp
  · intro hmatch
    have hfind1 : findUser (crud_users.update_token u
        (some (Auth.create_refresh_token t.sub now none)) db) t.sub =
        some { u with refresh_token := some (Auth.create_refresh_token t.sub now none) } := by
      rw [findUser_update_token, hu]
      simp
    refine ⟨?_, hfind1, ?_⟩
    · simp [routes_auth.refresh_token, hdec now hexp, hv, hmatch]
    · intro hexp2 hne2
      have hv1 := get_user_by_email_ok hfind1
      have : ¬ ({ u with refresh_token := some (Auth.create_refresh_token t.sub now none) } :
          User).refresh_token = some t := by
        simp [hne2]
      simp [routes_auth.refresh_token, hdec now2 hexp2, hv1, this]

/-- Concrete refresh token issued at time 0 for the fixture identity. -/
def rt0 : Token := Auth.create_refresh_token "wick@example.com" 0 none

/-- The fixture identity logged in with `rt0` stored. -/
def wickLoggedIn : User := { wick with refresh_token := some rt0 }

/-- C2 — witness: a concrete rotation at time 1 succeeds and the old
refresh token is rejected at time 2. -/
theorem c2_refresh_rotation_witness :
    routes_auth.refresh_token 1 rt0 [wickLoggedIn] =
      (.ok (.tokens (Auth.create_access_token "wick@example.com" 1 none)
            (Auth.create_refresh_token "wick@example.com" 1 none) "bearer"),
       crud_users.update_token wickLoggedIn
         (some (Auth.create_refresh_token "wick@example.com" 1 none)) [wickLoggedIn]) ∧
    (routes_auth.refresh_token 2 rt0
        (crud_users.update_token wickLoggedIn
          (some (Auth.create_refresh_token "wick@example.com" 1 none)) [wickLoggedIn])).1 =
      .error (.http 401 "Invalid refresh token") :=
  ⟨((c2_refresh_rotation 1 2 rt0 [wickLoggedIn] wickLoggedIn rfl (by decide) rfl
      (by decide)).2 rfl).1,
   ((c2_refresh_rotation 1 2 rt0 [wickLoggedIn] wickLoggedIn rfl (by decide) rfl
      (by decide)).2 rfl).2.2 (by decide) (by decide)⟩

/-- C10: presenting a validly signed, unexpired `confirm_email`- or
`reset_password`-scoped token to the refresh operation for an existing
identity whose stored refresh token is refresh-scoped is not a pure
rejection — the stored refresh token is cleared before the 401 failure, so
the holder of such a token revokes the identity's live session without
holding the refresh token. -/
theorem c10_nonrefresh_token_clears_session (now : Nat) (t rt : Token) (db : List User)
    (u : User)
    (hsig : t.validSig = true) (hexp : now ≤ t.exp)
    (hscope : t.scope = "confirm_email" ∨ t.scope = "reset_password")
    (hu : findUser db t.sub = some u)
    (hstored : u.refresh_token = some rt) (hrt : rt.scope = "refresh_token") :
    routes_auth.refresh_token now t db =
      (.error (.http 401 "Invalid refresh token"), crud_users.update_token u none db) ∧
    findUser (crud_users.update_token u none db) t.sub =
      some { u with refresh_token := none } := by
  have hv : crud_users.get_user_by_email t.sub db = .ok u := get_user_by_email_ok hu
  have hne : u.refresh_token ≠ some t := by
    rw [hstored]
    intro hh
    have heqt : rt = t := Option.some.inj hh
    rcases hscope with h | h <;> rw [heqt, h] at hrt <;> exact absurd hrt (by decide)
  have hdec : Auth.decode_token now t = .ok t.sub := by
    rcases hscope with h | h <;> simp [Auth.decode_token, jwtDecode, hsig, hexp, h]
  constructor
  · simp [routes_auth.refresh_token, hdec, hv, hne]
  · rw [findUser_update_token, hu]
    simp

/-- C10 — witness: a concrete confirm-email token presented to refresh
clears the stored refresh token of the logged-in fixture identity. -/
theorem c10_nonrefresh_witness :
    routes_auth.refresh_token 0 ⟨"wick@example.com", "confirm_email", 0, 900, true⟩
        [wickLoggedIn] =
      (.error (.http 401 "Invalid refresh token"),
       crud_users.update_token wickLoggedIn none [wickLoggedIn]) ∧
    findUser (crud_users.update_token wickLoggedIn none [wickLoggedIn]) "wick@example.com" =
      some { wickLoggedIn with refresh_token := none } :=
  c10_nonrefresh_token_clears_session 0 _ rt0 [wickLoggedIn] wickLoggedIn rfl (by decide)
    (Or.inl rfl) (by decide) rfl rfl

/-- C3: reset-nonce consumption is single-use — with a valid
`reset_password`-scoped token for a confirmed identity whose nonce is
present, the first confirmation hashes and persists the new password and
deletes the nonce, and an identical second attempt with the same token
fails with the 422 expired-token error, the nonce now being absent. -/
theorem c3_reset_nonce_single_use (now now2 : Nat) (t : Token) (pw pw2 : String)
    (db : List User) (cache : Cache) (u : User) (v : CVal)
    (hsig : t.validSig = true) (hexp : now ≤ t.exp) (hscope : t.scope = "reset_password")
    (hu : findUser db t.sub = some u) (hconf : u.confirmed = true)
    (hnonce : cacheGet cache (Key.resetKey u.email t) = some v) :
    routes_auth.confirm_reset_password now t pw db cache =
      (.ok (.message "Password succefuly updated"),
       crud_users.update_password u (Auth.get_password_hash pw) db,
       cacheDelete cache (Key.resetKey u.email t)) ∧
    findUser (crud_users.update_password u (Auth.get_password_hash pw) db) t.sub =
      some { u with password := Auth.get_password_hash pw } ∧
    (now2 ≤ t.exp →
      routes_auth.confirm_reset_password now2 t pw2
          (crud_users.update_password u (Auth.get_password_hash pw) db)
          (cacheDelete cache (Key.resetKey u.email t)) =
        (.error (.http 422 ("Your password reset token has expired. "
            ++ "Please request a new token to reset your password.")),
         crud_users.update_password u (Auth.get_password_hash pw) db,
         cacheDelete cache (Key.resetKey u.email t))) := by
  have hv : crud_users.get_user_by_email t.sub db = .ok u := get_user_by_email_ok hu
  have hdec : ∀ m, m ≤ t.exp → Auth.decode_token m t = .ok t.sub := by
    intro m hm
    simp [Auth.decode_token, jwtDecode, hsig, hm, hscope]
  have hfind1 : findUser (crud_users.update_password u (Auth.get_password_hash pw) db)
      t.sub = some { u with password := Auth.get_password_hash pw } := by
    rw [findUser_update_password, hu]
    simp
  refine ⟨?_, hfind1, ?_⟩
  · simp [routes_auth.confirm_reset_password, hdec now hexp, hv, hnonce, hconf]
  · intro hexp2
    have hv1 := get_user_by_email_ok hfind1
    have hkey : cacheGet (cacheDelete cache (Key.resetKey u.email t))
        (Key.resetKey ({ u with password := Auth.get_password_hash pw } : User).email t) =
        none := by
      simpa using cacheGet_delete_self cache (Key.resetKey u.email t)
    simp [routes_auth.confirm_reset_password, hdec now2 hexp2, hv1, hkey]

/-- Concrete reset token for the fixture identity. -/
def rpTok : Token := ⟨"wick@example.com", "reset_password", 0, 900, true⟩

/-- C3 — witness: a concrete first reset succeeds and the identical second
attempt fails 422. -/
theorem c3_reset_nonce_witness :
    routes_auth.confirm_reset_password 0 rpTok "newpass" [wick]
        [(Key.resetKey "wick@example.com" rpTok, ⟨.marker rpTok, some 900⟩)] =
      (.ok (.message "Password succefuly updated"),
       crud_users.update_password wick (Auth.get_password_hash "newpass") [wick],
       cacheDelete [(Key.resetKey "wick@example.com" rpTok, ⟨.marker rpTok, some 900⟩)]
         (Key.resetKey wick.email rpTok)) ∧
    (routes_auth.confirm_reset_password 1 rpTok "newpass"
        (crud_users.update_password wick (Auth.get_password_hash "newpass") [wick])
        (cacheDelete [(Key.resetKey "wick@example.com" rpTok, ⟨.marker rpTok, some 900⟩)]
          (Key.resetKey wick.email rpTok))).1 =
      .error (.http 422 ("Your password reset token has expired. "
          ++ "Please request a new token to reset your password.")) := by
  have h := c3_reset_nonce_single_use 0 1 rpTok "newpass" "newpass" [wick]
    [(Key.resetKey "wick@example.com" rpTok, ⟨.marker rpTok, some 900⟩)] wick
    (.marker rpTok) rfl (by decide) rfl (by decide) rfl (by decide)
  exact ⟨h.1, by rw [h.2.2 (by decide)]⟩

/-- A successful `get_user_by_email` comes from a successful `findUser`. -/
theorem findUser_of_get_ok {db : List User} {e : String} {u : User}
    (h : crud_users.get_user_by_email e db = .ok u) : findUser db e = some u := by
  unfold crud_users.get_user_by_email at h
  cases hfu : findUser db e with
  | none => rw [hfu] at h; exact absurd h (by simp)
  | some x =>
      rw [hfu] at h
      simp only [Except.ok.injEq] at h
      rw [h]

/-- The reset-confirmation route either leaves the database unchanged or,
for a confirmed looked-up identity, replaces its password hash. -/
theorem confirm_reset_password_db_cases (now : Nat) (t : Token) (pw : String)
    (db : List User) (cache : Cache) :
    (routes_auth.confirm_reset_password now t pw db cache).2.1 = db ∨
    ∃ email user, Auth.decode_token now t = .ok email ∧
      findUser db email = some user ∧ user.confirmed = true ∧
      (routes_auth.confirm_reset_password now t pw db cache).2.1 =
        crud_users.update_password user (Auth.get_password_hash pw) db := by
  cases hdec : Auth.decode_token now t with
  | error e1 => left; simp [routes_auth.confirm_reset_password, hdec]
  | ok email =>
      cases hget : crud_users.get_user_by_email email db with
      | error e2 => left; simp [routes_auth.confirm_reset_password, hdec, hget]
      | ok user =>
          cases hcg : cacheGet cache (Key.resetKey user.email t) with
          | none => left; simp [routes_auth.confirm_reset_password, hdec, hget, hcg]
          | some cv =>
              by_cases hcf : user.confirmed = true
              · right
                exact ⟨email, user, rfl, findUser_of_get_ok hget, hcf,
                  by simp [routes_auth.confirm_reset_password, hdec, hget, hcg, hcf]⟩
              · left
                simp [routes_auth.confirm_reset_password, hdec, hget, hcg, hcf]

/-- C6: a reset confirmation with a valid reset-scoped token and a present
nonce for an unconfirmed identity performs no mutation — the route returns
the user object, and database and cache are untouched, so the password is
unchanged; and across all inputs of the reset-confirmation operation, a
user whose password changes must have been confirmed. -/
theorem c6_reset_rejected_unconfirmed (now : Nat) (t : Token) (pw : String)
    (db : List User) (cache : Cache) (u : User) (v : CVal)
    (hsig : t.validSig = true) (hexp : now ≤ t.exp) (hscope : t.scope = "reset_password")
    (hu : findUser db t.sub = some u)
    (hnonce : cacheGet cache (Key.resetKey u.email t) = some v)
    (hunconf : u.confirmed = false) :
    routes_auth.confirm_reset_password now t pw db cache =
      (.ok (.userReturned u), db, cache) ∧
    (∀ now' t' pw' db' cache' e w w',
      findUser db' e = some w →
      findUser (routes_auth.confirm_reset_password now' t' pw' db' cache').2.1 e = some w' →
      w'.password ≠ w.password → w.confirmed = true) := by
  have hv : crud_users.get_user_by_email t.sub db = .ok u := get_user_by_email_ok hu
  have hdec : Auth.decode_token now t = .ok t.sub := by
    simp [Auth.decode_token, jwtDecode, hsig, hexp, hscope]
  constructor
  · simp [routes_auth.confirm_reset_password, hdec, hv, hnonce, hunconf]
  · intro now' t' pw' db' cache' e w w' hw hw' hne
    rcases confirm_reset_password_db_cases now' t' pw' db' cache' with hdb |
      ⟨email, user, _, huser, hconf2, hdb⟩
    · rw [hdb, hw] at hw'
      cases Option.some.inj hw'
      exact absurd rfl hne
    · rw [hdb, findUser_update_password, hw] at hw'
      simp only [Option.map] at hw'
      cases Option.some.inj hw'
      by_cases hwe : w.email == user.email
      · have hweq : w.email = user.email := by simpa using hwe
        have hue : user.email = email := findUser_some_email huser
        have hwe' : w.email = e := findUser_some_email hw
        have hee : e = email := by rw [← hwe', hweq, hue]
        have hsome : some w = some user := by rw [← hw, hee, huser]
        cases Option.some.inj hsome
        exact hconf2
      · rw [if_neg hwe] at hne
        exact absurd rfl hne

/-- C6 — witness: a concrete unconfirmed identity with a present nonce is
left unmutated by reset confirmation. -/
theorem c6_reset_rejected_witness :
    routes_auth.confirm_reset_password 0 rpTok "newpass" [wickUnconfirmed]
        [(Key.resetKey "wick@example.com" rpTok, ⟨.marker rpTok, some 900⟩)] =
      (.ok (.userReturned wickUnconfirmed), [wickUnconfirmed],
       [(Key.resetKey "wick@example.com" rpTok, ⟨.marker rpTok, some 900⟩)]) :=
  (c6_reset_rejected_unconfirmed 0 rpTok "newpass" [wickUnconfirmed]
    [(Key.resetKey "wick@example.com" rpTok, ⟨.marker rpTok, some 900⟩)] wickUnconfirmed
    (.marker rpTok) rfl (by decide) rfl (by decide) (by decide) rfl).1

/-! Cache invariant machinery for C5. -/

/-- An entry respects refresh-token confidentiality: under an identity key
only snapshots whose dict has no `refresh_token` field may appear. -/
def entryNoRT : Key × Entry → Bool
  | (Key.userKey _, e) =>
      match e.value with
      | CVal.snapshot d => decide (dictLookup d "refresh_token" = none)
      | CVal.marker _ => false
  | (Key.resetKey _ _, _) => true

/-- All identity-key entries of the cache are refresh-token free. -/
def cacheNoRT (c : Cache) : Bool := c.all entryNoRT

/-- Filtering preserves the cache invariant. -/
theorem cacheNoRT_filter (c : Cache) (q : Key × Entry → Bool) (h : cacheNoRT c = true) :
    cacheNoRT (c.filter q) = true := by
  simp only [cacheNoRT, List.all_eq_true] at h ⊢
  intro p hp
  exact h p (List.mem_of_mem_filter hp)

/-- Deleting a key preserves the cache invariant. -/
theorem cacheNoRT_delete (c : Cache) (k : Key) (h : cacheNoRT c = true) :
    cacheNoRT (cacheDelete c k) = true :=
  cacheNoRT_filter c _ h

/-- The invariant ignores TTLs. -/
theorem entryNoRT_ttl (k : Key) (v : CVal) (t t' : Option Nat) :
    entryNoRT (k, ⟨v, t⟩) = entryNoRT (k, ⟨v, t'⟩) := by
  cases k <;> rfl

/-- Setting a TTL preserves the cache invariant. -/
theorem cacheNoRT_expire (c : Cache) (k : Key) (n : Nat) (h : cacheNoRT c = true) :
    cacheNoRT (cacheExpire c k n) = true := by
  simp only [cacheNoRT, cacheExpire, List.all_eq_true] at h ⊢
  intro p hp
  rcases List.mem_map.mp hp with ⟨q, hq, rfl⟩
  by_cases hk : q.1 = k
  · rw [if_pos hk]
    have : entryNoRT (q.1, ⟨q.2.value, some n⟩) = entryNoRT (q.1, ⟨q.2.value, q.2.ttl⟩) :=
      entryNoRT_ttl _ _ _ _
    rw [this]
    exact h q hq
  · rw [if_neg hk]
    exact h q hq

/-- Writing an invariant-respecting entry preserves the invariant. -/
theorem cacheNoRT_set (c : Cache) (k : Key) (v : CVal)
    (hv : entryNoRT (k, ⟨v, none⟩) = true) (h : cacheNoRT c = true) :
    cacheNoRT (cacheSet c k v) = true := by
  simp only [cacheNoRT, cacheSet, List.all_cons, Bool.and_eq_true]
  exact ⟨hv, cacheNoRT_filter c _ h⟩

/-- The snapshot written by the code — the encoded user with the
`refresh_token` field popped — respects the invariant. -/
theorem entryNoRT_snapshotPop (e : String) (u : User) (ttl : Option Nat) :
    entryNoRT (Key.userKey e,
      ⟨.snapshot (dictPop (jsonable_encoder u) "refresh_token"), ttl⟩) = true := by
  simp [entryNoRT, dictLookup_dictPop]

/-- A reset-nonce marker respects the invariant. -/
theorem entryNoRT_marker (e : String) (t mk : Token) (ttl : Option Nat) :
    entryNoRT (Key.resetKey e t, ⟨.marker mk, ttl⟩) = true := rfl

/-- `get_current_user` preserves the cache invariant. -/
theorem cacheNoRT_get_current_user (now : Nat) (t : Token) (db : List User) (c : Cache)
    (h : cacheNoRT c = true) :
    cacheNoRT (Auth.get_current_user now t db c).2.1 = true := by
  cases hj : jwtDecode now t with
  | jwtError => simpa [Auth.get_current_user, hj] using h
  | ok payload =>
      by_cases hs : payload.scope = "access_token"
      · cases hget : crud_users.get_user_by_email payload.sub db with
        | error e => simpa [Auth.get_current_user, hj, hs, hget] using h
        | ok user =>
            cases hcg : cacheGet c (Key.userKey user.email) with
            | none =>
                have hgood := cacheNoRT_expire _ (Key.userKey user.email) 900
                  (cacheNoRT_set c (Key.userKey user.email)
                    (.snapshot (dictPop (jsonable_encoder user) "refresh_token"))
                    (entryNoRT_snapshotPop _ _ _) h)
                simpa [Auth.get_current_user, hj, hs, hget, hcg] using hgood
            | some cv =>
                cases cv with
                | snapshot d => simpa [Auth.get_current_user, hj, hs, hget, hcg] using h
                | marker mk => simpa [Auth.get_current_user, hj, hs, hget, hcg] using h
      · simpa [Auth.get_current_user, hj, hs] using h

/-- `get_reset_token` preserves the cache invariant. -/
theorem cacheNoRT_get_reset_token (now : Nat) (t : Token) (db : List User) (c : Cache)
    (h : cacheNoRT c = true) :
    cacheNoRT (routes_auth.get_reset_token now t db c).2 = true := by
  cases hdec : Auth.decode_token now t with
  | error e => simpa [routes_auth.get_reset_token, hdec] using h
  | ok email =>
      cases hget : crud_users.get_user_by_email email db with
      | error e => simpa [routes_auth.get_reset_token, hdec, hget] using h
      | ok user =>
          cases hcg : cacheGet c (Key.resetKey user.email t) with
          | none =>
              have hgood := cacheNoRT_expire _ (Key.resetKey user.email t) 900
                (cacheNoRT_set c (Key.resetKey user.email t) (.marker t)
                  (entryNoRT_marker _ _ _ _) h)
              simpa [routes_auth.get_reset_token, hdec, hget, hcg] using hgood
          | some cv => simpa [routes_auth.get_reset_token, hdec, hget, hcg] using h

/-- `confirm_reset_password` preserves the cache invariant. -/
theorem cacheNoRT_confirm_reset (now : Nat) (t : Token) (pw : String) (db : List User)
    (c : Cache) (h : cacheNoRT c = true) :
    cacheNoRT (routes_auth.confirm_reset_password now t pw db c).2.2 = true := by
  cases hdec : Auth.decode_token now t with
  | error e => simpa [routes_auth.confirm_reset_password, hdec] using h
  | ok email =>
      cases hget : crud_users.get_user_by_email email db with
      | error e => simpa [routes_auth.confirm_reset_password, hdec, hget] using h
      | ok user =>
          cases hcg : cacheGet c (Key.resetKey user.email t) with
          | none => simpa [routes_auth.confirm_reset_password, hdec, hget, hcg] using h
          | some cv =>
              by_cases hcf : user.confirmed = true
              · have hgood := cacheNoRT_delete c (Key.resetKey user.email t) h
                simpa [routes_auth.confirm_reset_password, hdec, hget, hcg, hcf] using hgood
              · simpa [routes_auth.confirm_reset_password, hdec, hget, hcg, hcf] using h

/-- `logout` preserves the cache invariant. -/
theorem cacheNoRT_logout (now : Nat) (t : Token) (db : List User) (c : Cache)
    (h : cacheNoRT c = true) :
    cacheNoRT (routes_auth.logout now t db c).2.2 = true := by
  have h2 := cacheNoRT_get_current_user now t db c h
  cases hg : Auth.get_current_user now t db c with
  | mk res rest =>
      cases rest with
      | mk c2 ev =>
          rw [hg] at h2
          cases res with
          | error e => simpa [routes_auth.logout, hg] using h2
          | ok user =>
              cases hcg : cacheGet c2 (Key.userKey user.email) with
              | none => simpa [routes_auth.logout, hg, hcg] using h2
              | some cv =>
                  have hgood := cacheNoRT_delete c2 (Key.userKey user.email) h2
                  simpa [routes_auth.logout, hg, hcg] using hgood

/-- `update_avatar` preserves the cache invariant. -/
theorem cacheNoRT_update_avatar (now : Nat) (t : Token) (url : String) (db : List User)
    (c : Cache) (h : cacheNoRT c = true) :
    cacheNoRT (routes_users.update_avatar now t url db c).2.2 = true := by
  have h2 := cacheNoRT_get_current_user now t db c h
  cases hg : Auth.get_current_user now t db c with
  | mk res rest =>
      cases rest with
      | mk c2 ev =>
          rw [hg] at h2
          cases res with
          | error e => simpa [routes_users.update_avatar, hg] using h2
          | ok cu =>
              cases hupd : crud_users.update_avatar cu.email (some url) db with
              | error e => simpa [routes_users.update_avatar, hg, hupd] using h2
              | ok pr =>
                  have hgood := cacheNoRT_expire _ (Key.userKey pr.1.email) 900
                    (cacheNoRT_set c2 (Key.userKey pr.1.email)
                      (.snapshot (dictPop (jsonable_encoder pr.1) "refresh_token"))
                      (entryNoRT_snapshotPop _ _ _) h2)
                  simpa [routes_users.update_avatar, hg, hupd] using hgood

/-- `delete_profile` preserves the cache invariant. -/
theorem cacheNoRT_delete_profile (now : Nat) (t : Token) (db : List User) (c : Cache)
    (h : cacheNoRT c = true) :
    cacheNoRT (routes_users.delete_profile now t db c).2.2 = true := by
  have h2 := cacheNoRT_get_current_user now t db c h
  cases hg : Auth.get_current_user now t db c with
  | mk res rest =>
      cases rest with
      | mk c2 ev =>
          rw [hg] at h2
          cases res with
          | error e => simpa [routes_users.delete_profile, hg] using h2
          | ok cu =>
              cases hdel : crud_users.delete_user cu.email db with
              | error e => simpa [routes_users.delete_profile, hg, hdel] using h2
              | ok pr =>
                  cases hcg : cacheGet c2 (Key.userKey cu.email) with
                  | none => simpa [routes_users.delete_profile, hg, hdel, hcg] using h2
                  | some cv =>
                      have hgood := cacheNoRT_delete c2 (Key.userKey cu.email) h2
                      simpa [routes_users.delete_profile, hg, hdel, hcg] using hgood

/-- Every operation preserves the cache invariant. -/
theorem cacheNoRT_applyOp (s : SysState) (op : Op) (h : cacheNoRT s.cache = true) :
    cacheNoRT (applyOp s op).cache = true := by
  cases op with
  | opSignup un em pw av => simpa [applyOp] using h
  | opLogin un pw now => simpa [applyOp] using h
  | opConfirmEmail now tok => simpa [applyOp] using h
  | opRefresh now tok => simpa [applyOp] using h
  | opLogout now tok => simpa [applyOp] using cacheNoRT_logout now tok s.db s.cache h
  | opRequestEmail em => simpa [applyOp] using h
  | opForgotPassword em => simpa [applyOp] using h
  | opGetResetToken now tok =>
      simpa [applyOp] using cacheNoRT_get_reset_token now tok s.db s.cache h
  | opConfirmReset now tok pw =>
      simpa [applyOp] using cacheNoRT_confirm_reset now tok pw s.db s.cache h
  | opResolve now tok =>
      simpa [applyOp] using cacheNoRT_get_current_user now tok s.db s.cache h
  | opUpdateAvatar now tok url =>
      simpa [applyOp] using cacheNoRT_update_avatar now tok url s.db s.cache h
  | opDeleteProfile now tok =>
      simpa [applyOp] using cacheNoRT_delete_profile now tok s.db s.cache h

/-- Sequences of operations preserve the cache invariant. -/
theorem cacheNoRT_applyOps (ops : List Op) (s : SysState) (h : cacheNoRT s.cache = true) :
    cacheNoRT (applyOps s ops).cache = true := by
  induction ops generalizing s with
  | nil => exact h
  | cons op ops ih => exact ih _ (cacheNoRT_applyOp s op h)

/-- C5: every identity-snapshot write into the cache (current-identity
resolution and avatar update) serializes the user with the refresh-token
field popped, and consequently in every cache state reachable by the
system's operations from a refresh-token-free cache (in particular the
empty one), no identity-key entry holds a refresh-token field. -/
theorem c5_refresh_token_never_cached :
    (∀ u : User,
      dictLookup (dictPop (jsonable_encoder u) "refresh_token") "refresh_token" = none) ∧
    (∀ (ops : List Op) (s : SysState), cacheNoRT s.cache = true →
      cacheNoRT (applyOps s ops).cache = true) :=
  ⟨fun u => dictLookup_dictPop (jsonable_encoder u) "refresh_token",
   fun ops s h => cacheNoRT_applyOps ops s h⟩

/-- C5 — witness: from the empty cache, a concrete resolution of a
logged-in identity (whose row does hold a refresh token) leaves the cache
refresh-token free. -/
theorem c5_refresh_token_never_cached_witness :
    cacheNoRT ([] : Cache) = true ∧
    cacheNoRT (applyOps ⟨[wickLoggedIn], []⟩
      [.opResolve 0 ⟨"wick@example.com", "access_token", 0, 900, true⟩]).cache = true :=
  ⟨rfl, c5_refresh_token_never_cached.2
    [.opResolve 0 ⟨"wick@example.com", "access_token", 0, 900, true⟩]
    ⟨[wickLoggedIn], []⟩ rfl⟩

/-! Confirmed-flag monotonicity machinery for C9. -/

/-- Between two database states, no identity's confirmed flag drops from
true to false (identities matched by email). -/
def confirmedMono (db db' : List User) : Prop :=
  ∀ e u u', findUser db e = some u → findUser db' e = some u' →
    u.confirmed = true → u'.confirmed = true

/-- An unchanged database is trivially monotone. -/
theorem confirmedMono_refl (db : List User) : confirmedMono db db := by
  intro e u u' h h' hc
  cases Option.some.inj (h.symm.trans h')
  exact hc

/-- A pointwise email-preserving, confirmed-monotone field update is
monotone. -/
theorem confirmedMono_pointUpdate (db : List User) (target : String) (g : User → User)
    (hge : ∀ v, (g v).email = v.email)
    (hgc : ∀ v, v.confirmed = true → (g v).confirmed = true) :
    confirmedMono db (db.map (fun v => if v.email == target then g v else v)) := by
  intro e u u' h h' hc
  rw [findUser_map _ _ _
    (by intro v; by_cases hv : v.email == target <;> simp [hv, hge]), h] at h'
  simp only [Option.map] at h'
  cases Option.some.inj h'
  by_cases hv : u.email == target
  · rw [if_pos hv]
    exact hgc u hc
  · rw [if_neg hv]
    exact hc

/-- Replacing the looked-up user by a record with the same email and the
same confirmed flag is monotone. -/
theorem confirmedMono_replaceUser (db : List User) (target : String) (u0 w : User)
    (hu0 : findUser db target = some u0) (hwe : w.email = u0.email)
    (hwc : w.confirmed = u0.confirmed) :
    confirmedMono db (db.map (fun v => if v.email == target then w else v)) := by
  have htarget : u0.email = target := findUser_some_email hu0
  intro e u u' h h' hc
  rw [findUser_map _ _ _ ?hf, h] at h'
  case hf =>
    intro v
    by_cases hv : v.email == target
    · rw [if_pos hv, hwe, htarget]
      have : v.email = target := by simpa using hv
      rw [this]
    · rw [if_neg hv]
  simp only [Option.map] at h'
  cases Option.some.inj h'
  by_cases hv : u.email == target
  · rw [if_pos hv]
    have hue : u.email = target := by simpa using hv
    have he' : e = target := by rw [← findUser_some_email h]; exact hue
    have hsome : some u = some u0 := by rw [← h, he', hu0]
    cases Option.some.inj hsome
    rw [hwc]
    exact hc
  · rw [if_neg hv]
    exact hc

/-- Deleting by one email leaves lookups at other emails unchanged. -/
theorem findUser_filter_ne (db : List User) (target e : String) (hne : e ≠ target) :
    findUser (db.filter (fun v => v.email != target)) e = findUser db e := by
  induction db with
  | nil => rfl
  | cons x db ih =>
      by_cases hx : x.email == e
      · have hxe : x.email = e := by simpa using hx
        have hxt : (x.email != target) = true := by
          simp [bne, hxe]
          exact hne
        simp [findUser, List.filter_cons, hxt, hx]
      · by_cases hxt : (x.email != target) = true
        · simp only [findUser, List.filter_cons, hxt, if_pos] at ih ⊢
          rw [List.find?_cons_of_neg _ (by simpa using hx),
            List.find?_cons_of_neg _ (by simpa using hx)]
          exact ih
        · simp only [findUser, List.filter_cons, hxt] at ih ⊢
          rw [if_neg (by decide),
            List.find?_cons_of_neg _ (by simpa using hx)]
          exact ih

/-- Deleting by email removes that email from lookups. -/
theorem findUser_filter_self (db : List User) (target : String) :
    findUser (db.filter (fun v => v.email != target)) target = none := by
  rw [findUser, List.find?_eq_none]
  intro x hx
  have hkeep := (List.mem_filter.mp hx).2
  simp only [bne_iff_ne, ne_eq] at hkeep
  simp only [beq_iff_eq]
  exact hkeep

/-- Deleting a user is monotone. -/
theorem confirmedMono_deleteFilter (db : List User) (target : String) :
    confirmedMono db (db.filter (fun v => v.email != target)) := by
  intro e u u' h h' hc
  by_cases he : e = target
  · rw [he, findUser_filter_self] at h'
    exact absurd h' (by simp)
  · rw [findUser_filter_ne db target e he, h] at h'
    cases Option.some.inj h'
    exact hc

/-- Appending new rows is monotone (lookups prefer existing rows). -/
theorem confirmedMono_append (db l : List User) : confirmedMono db (db ++ l) := by
  intro e u u' h h' hc
  rw [findUser, List.find?_append] at h'
  rw [findUser] at h
  rw [h] at h'
  simp only [Option.or] at h'
  cases Option.some.inj h'
  exact hc

/-- `update_token` is monotone. -/
theorem confirmedMono_update_token (db : List User) (w : User) (tok : Option Token) :
    confirmedMono db (crud_users.update_token w tok db) :=
  confirmedMono_pointUpdate db w.email _ (by intro v; rfl) (by intro v hv; exact hv)

/-- `update_password` is monotone. -/
theorem confirmedMono_update_password (db : List User) (w : User) (npw : String) :
    confirmedMono db (crud_users.update_password w npw db) :=
  confirmedMono_pointUpdate db w.email _ (by intro v; rfl) (by intro v hv; exact hv)

/-- The signup route's database effect is monotone. -/
theorem confirmedMono_signup_db (un em pw av : String) (db : List User) :
    confirmedMono db (routes_auth.signup un em pw av db).2 := by
  by_cases hany : (db.any (fun u => u.email == em || u.username == un)) = true
  · have hdb : (routes_auth.signup un em pw av db).2 = db := by
      simp [routes_auth.signup, crud_users.create_user, hany]
    rw [hdb]
    exact confirmedMono_refl db
  · have hdb : (routes_auth.signup un em pw av db).2 = db ++
        [{ id := db.length, username := un, email := em
         , password := Auth.get_password_hash pw
         , avatar := some av, refresh_token := none, confirmed := false }] := by
      simp [routes_auth.signup, crud_users.create_user, hany]
    rw [hdb]
    exact confirmedMono_append db _

/-- The login route's database effect is monotone. -/
theorem confirmedMono_login_db (un pw : String) (now : Nat) (db : List User) :
    confirmedMono db (routes_auth.login un pw now db).2 := by
  cases hget : crud_users.get_user_by_email un db with
  | error e =>
      have hdb : (routes_auth.login un pw now db).2 = db := by
        simp [routes_auth.login, hget]
      rw [hdb]
      exact confirmedMono_refl db
  | ok user =>
      by_cases hcf : user.confirmed = false
      · have hdb : (routes_auth.login un pw now db).2 = db := by
          simp [routes_auth.login, hget, hcf]
        rw [hdb]
        exact confirmedMono_refl db
      · by_cases hvp : Auth.verify_password pw user.password = false
        · have hdb : (routes_auth.login un pw now db).2 = db := by
            simp [routes_auth.login, hget, hcf, hvp]
          rw [hdb]
          exact confirmedMono_refl db
        · have hdb : (routes_auth.login un pw now db).2 =
              crud_users.update_token user
                (some (Auth.create_refresh_token user.email now none)) db := by
            simp [routes_auth.login, hget, hcf, hvp]
          rw [hdb]
          exact confirmedMono_update_token db user _

/-- The email-confirmation route's database effect is monotone. -/
theorem confirmedMono_confirmed_email_db (now : Nat) (t : Token) (db : List User) :
    confirmedMono db (routes_auth.confirmed_email now t db).2 := by
  cases hdec : Auth.decode_token now t with
  | error e =>
      have hdb : (routes_auth.confirmed_email now t db).2 = db := by
        simp [routes_auth.confirmed_email, hdec]
      rw [hdb]
      exact confirmedMono_refl db
  | ok email =>
      cases hget : crud_users.get_user_by_email email db with
      | error e =>
          have hdb : (routes_auth.confirmed_email now t db).2 = db := by
            simp [routes_auth.confirmed_email, hdec, hget]
          rw [hdb]
          exact confirmedMono_refl db
      | ok user =>
          by_cases hcf : user.confirmed = true
          · have hdb : (routes_auth.confirmed_email now t db).2 = db := by
              simp [routes_auth.confirmed_email, hdec, hget, hcf]
            rw [hdb]
            exact confirmedMono_refl db
          · have hcr : crud_users.confirmed_email email db =
                .ok (db.map (fun v =>
                  if v.email == email then { v with confirmed := true } else v)) := by
              simp [crud_users.confirmed_email, hget]
            have hdb : (routes_auth.confirmed_email now t db).2 =
                db.map (fun v =>
                  if v.email == email then { v with confirmed := true } else v) := by
              simp [routes_auth.confirmed_email, hdec, hget, hcf, hcr]
            rw [hdb]
            exact confirmedMono_pointUpdate db email _ (fun v => rfl) (fun v hv => rfl)

/-- The refresh route's database effect is monotone. -/
theorem confirmedMono_refresh_db (now : Nat) (t : Token) (db : List User) :
    confirmedMono db (routes_auth.refresh_token now t db).2 := by
  cases hdec : Auth.decode_token now t with
  | error e =>
      have hdb : (routes_auth.refresh_token now t db).2 = db := by
        simp [routes_auth.refresh_token, hdec]
      rw [hdb]
      exact confirmedMono_refl db
  | ok email =>
      cases hget : crud_users.get_user_by_email email db with
      | error e =>
          have hdb : (routes_auth.refresh_token now t db).2 = db := by
            simp [routes_auth.refresh_token, hdec, hget]
          rw [hdb]
          exact confirmedMono_refl db
      | ok user =>
          by_cases hrt : user.refresh_token ≠ some t
          · have hdb : (routes_auth.refresh_token now t db).2 =
                crud_users.update_token user none db := by
              simp [routes_auth.refresh_token, hdec, hget, hrt]
            rw [hdb]
            exact confirmedMono_update_token db user _
          · have hdb : (routes_auth.refresh_token now t db).2 =
                crud_users.update_token user
                  (some (Auth.create_refresh_token email now none)) db := by
              simp [routes_auth.refresh_token, hdec, hget, hrt]
            rw [hdb]
            exact confirmedMono_update_token db user _

/-- The logout route's database effect is monotone. -/
theorem confirmedMono_logout_db (now : Nat) (t : Token) (db : List User) (c : Cache) :
    confirmedMono db (routes_auth.logout now t db c).2.1 := by
  cases hg : Auth.get_current_user now t db c with
  | mk res rest =>
      cases rest with
      | mk c2 ev =>
          cases res with
          | error e =>
              have hdb : (routes_auth.logout now t db c).2.1 = db := by
                simp [routes_auth.logout, hg]
              rw [hdb]
              exact confirmedMono_refl db
          | ok user =>
              have hdb : (routes_auth.logout now t db c).2.1 =
                  crud_users.update_token user none db := by
                simp [routes_auth.logout, hg]
              rw [hdb]
              exact confirmedMono_update_token db user _

/-- The reset-confirmation route's database effect is monotone. -/
theorem confirmedMono_confirm_reset_db (now : Nat) (t : Token) (pw : String)
    (db : List User) (c : Cache) :
    confirmedMono db (routes_auth.confirm_reset_password now t pw db c).2.1 := by
  rcases confirm_reset_password_db_cases now t pw db c with hdb |
    ⟨em, user, _, _, _, hdb⟩
  · rw [hdb]
    exact confirmedMono_refl db
  · rw [hdb]
    exact confirmedMono_update_password db user _

/-- The avatar-update route's database effect is monotone. -/
theorem confirmedMono_update_avatar_db (now : Nat) (t : Token) (url : String)
    (db : List User) (c : Cache) :
    confirmedMono db (routes_users.update_avatar now t url db c).2.1 := by
  cases hg : Auth.get_current_user now t db c with
  | mk res rest =>
      cases rest with
      | mk c2 ev =>
          cases res with
          | error e =>
              have hdb : (routes_users.update_avatar now t url db c).2.1 = db := by
                simp [routes_users.update_avatar, hg]
              rw [hdb]
              exact confirmedMono_refl db
          | ok cu =>
              cases hget2 : crud_users.get_user_by_email cu.email db with
              | error e2 =>
                  have hupd : crud_users.update_avatar cu.email (some url) db =
                      .error e2 := by
                    simp [crud_users.update_avatar, hget2]
                  have hdb : (routes_users.update_avatar now t url db c).2.1 = db := by
                    simp [routes_users.update_avatar, hg, hupd]
                  rw [hdb]
                  exact confirmedMono_refl db
              | ok u0 =>
                  have hupd : crud_users.update_avatar cu.email (some url) db =
                      .ok ({ u0 with avatar := some url },
                        db.map (fun v => if v.email == cu.email
                          then { u0 with avatar := some url } else v)) := by
                    simp [crud_users.update_avatar, hget2]
                  have hdb : (routes_users.update_avatar now t url db c).2.1 =
                      db.map (fun v => if v.email == cu.email
                        then { u0 with avatar := some url } else v) := by
                    simp [routes_users.update_avatar, hg, hupd]
                  rw [hdb]
                  exact confirmedMono_replaceUser db cu.email u0 _
                    (findUser_of_get_ok hget2) rfl rfl

/-- The profile-deletion route's database effect is monotone. -/
theorem confirmedMono_delete_profile_db (now : Nat) (t : Token) (db : List User)
    (c : Cache) :
    confirmedMono db (routes_users.delete_profile now t db c).2.1 := by
  cases hg : Auth.get_current_user now t db c with
  | mk res rest =>
      cases rest with
      | mk c2 ev =>
          cases res with
          | error e =>
              have hdb : (routes_users.delete_profile now t db c).2.1 = db := by
                simp [routes_users.delete_profile, hg]
              rw [hdb]
              exact confirmedMono_refl db
          | ok cu =>
              cases hget2 : crud_users.get_user_by_email cu.email db with
              | error e2 =>
                  have hdel : crud_users.delete_user cu.email db = .error e2 := by
                    simp [crud_users.delete_user, hget2]
                  have hdb : (routes_users.delete_profile now t db c).2.1 = db := by
                    simp [routes_users.delete_profile, hg, hdel]
                  rw [hdb]
                  exact confirmedMono_refl db
              | ok u0 =>
                  have hdel : crud_users.delete_user cu.email db =
                      .ok (u0, db.filter (fun v => v.email != cu.email)) := by
                    simp [crud_users.delete_user, hget2]
                  have hdb : (routes_users.delete_profile now t db c).2.1 =
                      db.filter (fun v => v.email != cu.email) := by
                    simp [routes_users.delete_profile, hg, hdel]
                  rw [hdb]
                  exact confirmedMono_deleteFilter db cu.email

/-- Every operation's database effect is monotone in the confirmed flag. -/
theorem confirmedMono_applyOp (s : SysState) (op : Op) :
    confirmedMono s.db (applyOp s op).db := by
  cases op with
  | opSignup un em pw av => simpa [applyOp] using confirmedMono_signup_db un em pw av s.db
  | opLogin un pw now => simpa [applyOp] using confirmedMono_login_db un pw now s.db
  | opConfirmEmail now tok =>
      simpa [applyOp] using confirmedMono_confirmed_email_db now tok s.db
  | opRefresh now tok => simpa [applyOp] using confirmedMono_refresh_db now tok s.db
  | opLogout now tok => simpa [applyOp] using confirmedMono_logout_db now tok s.db s.cache
  | opRequestEmail em => simpa [applyOp] using confirmedMono_refl s.db
  | opForgotPassword em => simpa [applyOp] using confirmedMono_refl s.db
  | opGetResetToken now tok => simpa [applyOp] using confirmedMono_refl s.db
  | opConfirmReset now tok pw =>
      simpa [applyOp] using confirmedMono_confirm_reset_db now tok pw s.db s.cache
  | opResolve now tok => simpa [applyOp] using confirmedMono_refl s.db
  | opUpdateAvatar now tok url =>
      simpa [applyOp] using confirmedMono_update_avatar_db now tok url s.db s.cache
  | opDeleteProfile now tok =>
      simpa [applyOp] using confirmedMono_delete_profile_db now tok s.db s.cache

/-- C9: email confirmation is idempotent and irreversible — with a valid
`confirm_email`-scoped token, an absent identity makes the operation fail
with the 404 NotFound outcome (the escaped `NoResultFound` mapped by the
registered handler); an already-confirmed identity yields the
already-confirmed message with the database unchanged; an unconfirmed
identity is transitioned to confirmed; and no operation of the system ever
takes an identity's confirmed flag from true back to false. -/
theorem c9_confirm_email_idempotent_irreversible :
    (∀ (now : Nat) (t : Token) (db : List User),
      t.validSig = true → now ≤ t.exp → t.scope = "confirm_email" →
      (findUser db t.sub = none →
        routes_auth.confirmed_email now t db = (.error .noResultFound, db) ∧
        no_result_exception_handler .noResultFound = .http 404 "User not found.") ∧
      (∀ u, findUser db t.sub = some u → u.confirmed = true →
        routes_auth.confirmed_email now t db =
          (.ok (.message "Your email is alredy confirmed"), db)) ∧
      (∀ u, findUser db t.sub = some u → u.confirmed = false →
        (routes_auth.confirmed_email now t db).1 = .ok (.message "Email confirmed") ∧
        findUser (routes_auth.confirmed_email now t db).2 t.sub =
          some { u with confirmed := true })) ∧
    (∀ (s : SysState) (op : Op), confirmedMono s.db (applyOp s op).db) := by
  constructor
  · intro now t db hsig hexp hscope
    have hdec : Auth.decode_token now t = .ok t.sub := by
      simp [Auth.decode_token, jwtDecode, hsig, hexp, hscope]
    refine ⟨?_, ?_, ?_⟩
    · intro habs
      have hget : crud_users.get_user_by_email t.sub db = .error .noResultFound := by
        simp [crud_users.get_user_by_email, habs]
      exact ⟨by simp [routes_auth.confirmed_email, hdec, hget], rfl⟩
    · intro u hu hconf
      have hget := get_user_by_email_ok hu
      simp [routes_auth.confirmed_email, hdec, hget, hconf]
    · intro u hu hunconf
      have hget := get_user_by_email_ok hu
      have hcr : crud_users.confirmed_email t.sub db =
          .ok (db.map (fun v =>
            if v.email == t.sub then { v with confirmed := true } else v)) := by
        simp [crud_users.confirmed_email, hget]
      have hue : u.email = t.sub := findUser_some_email hu
      constructor
      · simp [routes_auth.confirmed_email, hdec, hget, hunconf, hcr]
      · have hdb : (routes_auth.confirmed_email now t db).2 =
            db.map (fun v => if v.email == t.sub then { v with confirmed := true } else v) := by
          simp [routes_auth.confirmed_email, hdec, hget, hunconf, hcr]
        rw [hdb, findUser_map _ _ _
          (by intro v; by_cases hv : v.email == t.sub <;> simp [hv]), hu]
        simp [hue]
  · exact fun s op => confirmedMono_applyOp s op

/-- Concrete confirm-email token for the fixture identity. -/
def ceTok : Token := ⟨"wick@example.com", "confirm_email", 0, 900, true⟩

/-- C9 — witness: concrete absent, already-confirmed and unconfirmed
cases, plus monotonicity across a concrete operation. -/
theorem c9_confirm_email_witness :
    routes_auth.confirmed_email 0 ceTok [] = (.error .noResultFound, []) ∧
    routes_auth.confirmed_email 0 ceTok [wick] =
      (.ok (.message "Your email is alredy confirmed"), [wick]) ∧
    (routes_auth.confirmed_email 0 ceTok [wickUnconfirmed]).1 =
      .ok (.message "Email confirmed") ∧
    confirmedMono [wick] (applyOp ⟨[wick], []⟩ (.opConfirmEmail 0 ceTok)).db :=
  ⟨((c9_confirm_email_idempotent_irreversible.1 0 ceTok [] rfl (by decide) rfl).1
      (by decide)).1,
   (c9_confirm_email_idempotent_irreversible.1 0 ceTok [wick] rfl (by decide) rfl).2.1
      wick (by decide) rfl,
   ((c9_confirm_email_idempotent_irreversible.1 0 ceTok [wickUnconfirmed] rfl (by decide)
      rfl).2.2 wickUnconfirmed (by decide) rfl).1,
   c9_confirm_email_idempotent_irreversible.2 ⟨[wick], []⟩ (.opConfirmEmail 0 ceTok)⟩
